import Mathlib

/-!
Shallow embedding of `src/glamor.c` (glamor-egl): initialization/teardown of
the glamor acceleration backend, surface (pixmap) creation with software
fallback, render-target (FBO) attachment, and the per-frame block handler.

Pure-C control flow is translated directly; external collaborators that the
source calls but whose code is not in `src/` (the fb software backing store,
the FBO pool in `glamor_fbo.c`, DIX private-key machinery, the picture/screen
structs from the X server headers) are modelled from the specification at
their interface boundary, each marked `Modelled from the spec:` in its doc
comment.  The build configuration modelled is the RENDER-enabled desktop-GL
build (the `#ifdef RENDER` blocks present, `GLAMOR_GLES2` absent).
-/

/-- A host operation-table entry (a C function pointer).  The glamor handlers
installed by `glamor_init` are distinguished constructors; `host n` stands for
an arbitrary previously installed handler; `null` is the NULL pointer that a
freshly calloc-ed `saved_procs` record holds. -/
inductive Handler where
  | null
  | glamorCloseScreen
  | glamorCreateGC
  | glamorCreatePixmap
  | glamorDestroyPixmap
  | glamorGetSpans
  | glamorGetImage
  | glamorChangeWindowAttributes
  | glamorCopyWindow
  | glamorBitmapToRegion
  | glamorComposite
  | glamorTrapezoids
  | glamorGlyphs
  | glamorTriangles
  | glamorAddTraps
  | glamorGlyphUnrealize
  | glamorCreatePicture
  | glamorDestroyPicture
  | host (n : Nat)
  deriving DecidableEq, Repr

/-- The screen operation slots of `ScreenRec` that `src/glamor.c` touches
(install: glamor.c lines 329-357, restore: lines 444-452). -/
structure ScreenOpsRec where
  CloseScreen : Handler
  CreateGC : Handler
  CreatePixmap : Handler
  DestroyPixmap : Handler
  GetSpans : Handler
  GetImage : Handler
  ChangeWindowAttributes : Handler
  CopyWindow : Handler
  BitmapToRegion : Handler
  deriving DecidableEq, Repr

/-- The picture-screen operation slots of `PictureScreenRec` that
`src/glamor.c` touches (install: lines 361-383, restore: lines 457-461). -/
structure PictureOpsRec where
  Composite : Handler
  Trapezoids : Handler
  Glyphs : Handler
  Triangles : Handler
  AddTraps : Handler
  UnrealizeGlyph : Handler
  CreatePicture : Handler
  DestroyPicture : Handler
  deriving DecidableEq, Repr

/-- Mirror of the `saved_procs` member of `glamor_screen_private`
(declared in `glamor_priv.h`, which is not under `src/`; its field list is
reconstructed from the assignments in `glamor_init` / `glamor_close_screen`). -/
structure glamor_saved_procs where
  close_screen : Handler
  create_gc : Handler
  create_pixmap : Handler
  destroy_pixmap : Handler
  get_spans : Handler
  get_image : Handler
  change_window_attributes : Handler
  copy_window : Handler
  bitmap_to_region : Handler
  composite : Handler
  trapezoids : Handler
  glyphs : Handler
  triangles : Handler
  addtraps : Handler
  unrealize_glyph : Handler
  create_picture : Handler
  destroy_picture : Handler
  deriving DecidableEq, Repr

/-- The all-NULL `saved_procs` record of a freshly calloc-ed
`glamor_screen_private` (glamor.c line 260: `calloc(1, sizeof(*glamor_priv))`). -/
def glamor_saved_procs.initial : glamor_saved_procs :=
  { close_screen := .null, create_gc := .null, create_pixmap := .null
    destroy_pixmap := .null, get_spans := .null, get_image := .null
    change_window_attributes := .null, copy_window := .null
    bitmap_to_region := .null, composite := .null, trapezoids := .null
    glyphs := .null, triangles := .null, addtraps := .null
    unrealize_glyph := .null, create_picture := .null, destroy_picture := .null }

/-- The fields of `glamor_screen_private` that `src/glamor.c` reads or
writes (the struct itself lives in `glamor_priv.h`, not under `src/`). -/
structure glamor_screen_private where
  yInverted : Bool
  saved_procs : glamor_saved_procs
  flags : Nat
  tick : Nat
  has_pack_invert : Bool
  has_fbo_blit : Bool
  max_fbo_size : Nat
  deriving DecidableEq, Repr

/-- Identity of a block handler registered with the host event loop via
`RegisterBlockAndWakeupHandlers`. -/
inductive TickHandlerId where
  | glamorBlockHandler
  deriving DecidableEq, Repr

/-- The host-side state `src/glamor.c` mutates: the screen operation table,
the picture-screen operation table, the per-screen private slot
(`dixSetPrivate` on `glamor_screen_private_key`), and the event-loop
block-handler registration. -/
structure HostState where
  screen : ScreenOpsRec
  picture : PictureOpsRec
  screenPrivate : Option glamor_screen_private
  blockHandler : Option TickHandlerId
  deriving DecidableEq, Repr

/-! ### Pixmaps, FBOs and surface creation -/

/-- A GPU render-target handle (`glamor_pixmap_fbo`, declared in
`glamor_priv.h`, not under `src/`; modelled from the spec's render-target
handle: identifier plus width/height/depth). -/
structure glamor_pixmap_fbo where
  width : Nat
  height : Nat
  depth : Nat
  tex : Nat
  deriving DecidableEq, Repr

/-- Backing-store type tag (`glamor_pixmap_type_t`; the enum lives in the
public header, not under `src/`). Only `GLAMOR_TEXTURE_ONLY` is used by
`src/glamor.c`. -/
inductive glamor_pixmap_type where
  | GLAMOR_MEMORY
  | GLAMOR_TEXTURE_DRM
  | GLAMOR_TEXTURE_ONLY
  deriving DecidableEq, Repr

/-- The per-pixmap binding record (`glamor_pixmap_private`): backing type and
the exclusively owned render target, if any. -/
structure glamor_pixmap_private where
  type : glamor_pixmap_type
  fbo : Option glamor_pixmap_fbo
  deriving DecidableEq, Repr

/-- A host pixmap as observable through this subsystem: its drawable geometry
and the binding record attached to its private slot (`none` when the
subsystem does not track the pixmap). -/
structure Pixmap where
  width : Nat
  height : Nat
  depth : Nat
  usage : Nat
  priv : Option glamor_pixmap_private
  deriving DecidableEq, Repr

/-- Environment of collaborator behaviour for one surface-creation /
texture-attachment call: the queried maximum render-target dimension
(`GL_MAX_RENDERBUFFER_SIZE`), the supported depth set, and whether the
fallible allocation calls succeed. -/
structure GlamorEnv where
  max_fbo_size : Nat
  supported_depths : List Nat
  priv_alloc_ok : Bool
  fbo_alloc_ok : Bool
  fbo_from_tex_ok : Bool
  deriving DecidableEq, Repr

/-- Modelled from the spec: the software backing-store collaborator's
`create(screen, w, h, depth, usage) -> Surface`.  It always yields a plain
surface of the requested geometry with no binding record. -/
def fbCreatePixmap (w h depth usage : Nat) : Pixmap :=
  { width := w, height := h, depth := depth, usage := usage, priv := none }

/-- Modelled from the spec: feasibility check `width,height <= max dimension`
(`glamor_check_fbo_size`, defined outside `src/`). -/
def glamor_check_fbo_size (env : GlamorEnv) (w h : Nat) : Bool :=
  decide (w ≤ env.max_fbo_size) && decide (h ≤ env.max_fbo_size)

/-- Modelled from the spec: `depth in supported set`
(`glamor_check_fbo_depth`, defined outside `src/`). -/
def glamor_check_fbo_depth (env : GlamorEnv) (depth : Nat) : Bool :=
  env.supported_depths.contains depth

/-- The CPU-forced usage value `GLAMOR_CREATE_PIXMAP_CPU` (public header, not
under `src/`; its concrete value only needs to be a distinguished usage). -/
def GLAMOR_CREATE_PIXMAP_CPU : Nat := 256

/-- Modelled from the spec: the Render-Target Pool's
`acquire(width, height, depth, usage)` (`glamor_create_fbo`, defined outside
`src/`): fails on unsupported format, on exceeding the maximum dimension, or
when the underlying GPU allocation fails. -/
def glamor_create_fbo (env : GlamorEnv) (w h depth _usage : Nat) :
    Option glamor_pixmap_fbo :=
  if glamor_check_fbo_size env w h = false ∨
      glamor_check_fbo_depth env depth = false ∨
      env.fbo_alloc_ok = false then
    none
  else
    some { width := w, height := h, depth := depth, tex := 0 }

/-- `glamor_create_pixmap` (glamor.c lines 125-180).  Returns `none` for the
`NullPixmap` early return; every other path returns a pixmap.  Control flow
matches the source: the 32767 protocol-limit check, the feasibility check
falling back to `fbCreatePixmap(w,h)`, the zero-sized placeholder, the
binding-record allocation, the zero-size early return, the `glamor_create_fbo`
failure fallback (placeholder destroyed, private freed), and on success the
FBO attach plus `ModifyPixmapHeader(w,h)`. -/
def glamor_create_pixmap (env : GlamorEnv) (w h depth usage : Nat) :
    Option Pixmap :=
  if 32767 < w ∨ 32767 < h then
    none
  else if glamor_check_fbo_size env w h = false ∨
      glamor_check_fbo_depth env depth = false ∨
      usage = GLAMOR_CREATE_PIXMAP_CPU then
    some (fbCreatePixmap w h depth usage)
  else if env.priv_alloc_ok = false then
    some (fbCreatePixmap w h depth usage)
  else
    let placeholder : Pixmap :=
      { fbCreatePixmap 0 0 depth usage with
        priv := some { type := .GLAMOR_TEXTURE_ONLY, fbo := none } }
    if w = 0 ∨ h = 0 then
      some placeholder
    else
      match glamor_create_fbo env w h depth usage with
      | none => some (fbCreatePixmap w h depth usage)
      | some fbo =>
          some { placeholder with
                 width := w, height := h,
                 priv := some { type := .GLAMOR_TEXTURE_ONLY, fbo := some fbo } }

/-! ### Texture attachment (`glamor_set_pixmap_texture`) -/

/-- Observable render-target ownership events during one call. -/
inductive FboEvent where
  | detached (f : glamor_pixmap_fbo)
  | destroyed (f : glamor_pixmap_fbo)
  | attached (f : glamor_pixmap_fbo)
  deriving DecidableEq, Repr

/-- Modelled from the spec: the bind-texture-to-render-target GPU call
(`glamor_create_fbo_from_tex`, defined outside `src/`): wraps the given
texture in a fresh render target, or fails. -/
def glamor_create_fbo_from_tex (env : GlamorEnv) (w h depth tex : Nat) :
    Option glamor_pixmap_fbo :=
  if env.fbo_from_tex_ok then
    some { width := w, height := h, depth := depth, tex := tex }
  else
    none

/-- `glamor_set_pixmap_texture` (glamor.c lines 81-109): if the binding
record already owns an FBO, detach it and destroy it; then create an FBO from
the given texture; on failure just return (the record now owns nothing); on
success attach the new FBO.  The result pairs the updated binding record with
the ordered trace of ownership events. -/
def glamor_set_pixmap_texture (env : GlamorEnv)
    (priv : glamor_pixmap_private) (w h depth tex : Nat) :
    glamor_pixmap_private × List FboEvent :=
  let step1 : glamor_pixmap_private × List FboEvent :=
    match priv.fbo with
    | some f => ({ priv with fbo := none },
                 [FboEvent.detached f, FboEvent.destroyed f])
    | none => (priv, [])
  match glamor_create_fbo_from_tex env w h depth tex with
  | none => step1
  | some fbo => ({ step1.1 with fbo := some fbo },
                 step1.2 ++ [FboEvent.attached fbo])

/-! ### Per-frame block handler -/

/-- GPU/pool calls observable from the block handlers. -/
inductive GpuCall where
  | glFlush
  | glFinish
  | fboExpire
  deriving DecidableEq, Repr

/-- `_glamor_block_handler` (glamor.c lines 219-226), the handler that
`glamor_init` registers with the host event loop: its call trace is a flush
followed by a blocking finish — nothing else. -/
def _glamor_block_handler : List GpuCall :=
  [GpuCall.glFlush, GpuCall.glFinish]

/-- `glamor_block_handler` (glamor.c lines 206-217), the public entry point:
increments the tick, then flush, blocking finish, and
`glamor_fbo_expire` (the pool's expire). -/
def glamor_block_handler (priv : glamor_screen_private) :
    glamor_screen_private × List GpuCall :=
  ({ priv with tick := priv.tick + 1 },
   [GpuCall.glFlush, GpuCall.glFinish, GpuCall.fboExpire])

/-- The call trace of a registered tick handler. -/
def tickHandlerCalls : TickHandlerId → List GpuCall
  | .glamorBlockHandler => _glamor_block_handler

/-! ### Initialization (`glamor_init`) -/

/-- Modelled from the spec: the recognized configuration flag
`InvertedYAxis` (`GLAMOR_INVERTED_Y_AXIS`, public header not under `src/`). -/
def GLAMOR_INVERTED_Y_AXIS : Nat := 1

/-- Modelled from the spec: the recognized configuration flag
`UseScreenHooks` (`GLAMOR_USE_SCREEN`). -/
def GLAMOR_USE_SCREEN : Nat := 2

/-- Modelled from the spec: the recognized configuration flag
`UseCompositingHooks` (`GLAMOR_USE_PICTURE_SCREEN`). -/
def GLAMOR_USE_PICTURE_SCREEN : Nat := 4

/-- `GLAMOR_VALID_FLAGS`: the union of the three recognized flags. -/
def GLAMOR_VALID_FLAGS : Nat :=
  GLAMOR_INVERTED_Y_AXIS ||| GLAMOR_USE_SCREEN ||| GLAMOR_USE_PICTURE_SCREEN

/-- Environment of collaborator behaviour for one `glamor_init` call: whether
the calloc, the two `dixRegisterPrivateKey` calls, the GL version/extension
requirements and `RegisterBlockAndWakeupHandlers` succeed, plus the queried
capabilities. -/
structure InitEnv where
  priv_alloc_ok : Bool
  screen_key_ok : Bool
  pixmap_key_ok : Bool
  gl_version_ok : Bool
  register_handlers_ok : Bool
  has_pack_invert : Bool
  has_fbo_blit : Bool
  max_renderbuffer_size : Nat
  deriving DecidableEq, Repr

/-- The screen table after installing the glamor screen hooks
(glamor.c lines 329-357). -/
def installScreenHooks : ScreenOpsRec :=
  { CloseScreen := .glamorCloseScreen, CreateGC := .glamorCreateGC
    CreatePixmap := .glamorCreatePixmap, DestroyPixmap := .glamorDestroyPixmap
    GetSpans := .glamorGetSpans, GetImage := .glamorGetImage
    ChangeWindowAttributes := .glamorChangeWindowAttributes
    CopyWindow := .glamorCopyWindow, BitmapToRegion := .glamorBitmapToRegion }

/-- `glamor_init` (glamor.c lines 247-407).  Rejects flag sets with a bit
outside `GLAMOR_VALID_FLAGS` (the Nat test `8 ≤ flags` is exactly
`flags & ~GLAMOR_VALID_FLAGS != 0` for the three-bit valid mask).  Each
fallible collaborator call is an `InitEnv` field; every failure after the
private slot was set goes through the `fail:` label, which frees the private
and clears the slot.  On success the screen/picture hooks selected by the
flags are installed with the previous handlers saved in `saved_procs`
(`CreatePicture`/`DestroyPicture` are hooked unconditionally under RENDER,
lines 379-383), the block handler is registered when `GLAMOR_USE_SCREEN` is
set, and the finished private is stored in the screen's private slot. -/
def glamor_init (env : InitEnv) (flags : Nat) (s : HostState) :
    Bool × HostState :=
  if 8 ≤ flags then
    (false, s)
  else if env.priv_alloc_ok = false then
    (false, s)
  else if env.screen_key_ok = false then
    (false, { s with screenPrivate := none })
  else if env.pixmap_key_ok = false then
    (false, { s with screenPrivate := none })
  else if env.gl_version_ok = false then
    (false, { s with screenPrivate := none })
  else if flags.testBit 1 ∧ env.register_handlers_ok = false then
    (false, { s with screenPrivate := none })
  else
    let sp0 := glamor_saved_procs.initial
    let screen1 := if flags.testBit 1 then installScreenHooks else s.screen
    let sp1 :=
      if flags.testBit 1 then
        { sp0 with
          close_screen := s.screen.CloseScreen
          create_gc := s.screen.CreateGC
          create_pixmap := s.screen.CreatePixmap
          destroy_pixmap := s.screen.DestroyPixmap
          get_spans := s.screen.GetSpans
          get_image := s.screen.GetImage
          change_window_attributes := s.screen.ChangeWindowAttributes
          copy_window := s.screen.CopyWindow
          bitmap_to_region := s.screen.BitmapToRegion }
      else sp0
    let picture1 :=
      if flags.testBit 2 then
        { s.picture with
          Composite := .glamorComposite, Trapezoids := .glamorTrapezoids
          Glyphs := .glamorGlyphs, Triangles := .glamorTriangles
          AddTraps := .glamorAddTraps, UnrealizeGlyph := .glamorGlyphUnrealize }
      else s.picture
    let sp2 :=
      if flags.testBit 2 then
        { sp1 with
          composite := s.picture.Composite
          trapezoids := s.picture.Trapezoids
          glyphs := s.picture.Glyphs
          triangles := s.picture.Triangles
          addtraps := s.picture.AddTraps
          unrealize_glyph := s.picture.UnrealizeGlyph }
      else sp1
    let sp3 := { sp2 with
                 create_picture := picture1.CreatePicture
                 destroy_picture := picture1.DestroyPicture }
    let picture2 := { picture1 with
                      CreatePicture := .glamorCreatePicture
                      DestroyPicture := .glamorDestroyPicture }
    let priv : glamor_screen_private :=
      { yInverted := flags.testBit 0
        saved_procs := sp3
        flags := flags
        tick := 0
        has_pack_invert := env.has_pack_invert
        has_fbo_blit := env.has_fbo_blit
        max_fbo_size := env.max_renderbuffer_size }
    (true,
     { screen := screen1
       picture := picture2
       screenPrivate := some priv
       blockHandler :=
         if flags.testBit 1 then some .glamorBlockHandler else s.blockHandler })

/-! ### Teardown (`glamor_close_screen`, `glamor_fini`) -/

/-- Environment for one `glamor_close_screen` call: the result returned by
invoking a given close-screen handler (the chained call
`screen->CloseScreen(idx, screen)` after restoration). -/
structure CloseEnv where
  closeResult : Handler → Bool

/-- `glamor_close_screen` (glamor.c lines 430-470).  Under `GLAMOR_USE_SCREEN`
it writes back the saved screen handlers — the source restores CloseScreen,
CreateGC, CreatePixmap, DestroyPixmap, GetSpans, ChangeWindowAttributes,
CopyWindow and BitmapToRegion but NOT GetImage (lines 444-452); under
`GLAMOR_USE_PICTURE_SCREEN` it restores Composite, Trapezoids, Glyphs,
Triangles and CreatePicture but NOT AddTraps, UnrealizeGlyph or
DestroyPicture (lines 457-461).  It then frees the private and clears the
slot (`glamor_release_screen_priv`), and under `GLAMOR_USE_SCREEN` returns
the chained call through the restored `screen->CloseScreen`, otherwise TRUE.
Invoked only on screens glamor owns; the `none` branch is unreachable in use. -/
def glamor_close_screen (env : CloseEnv) (s : HostState) : Bool × HostState :=
  match s.screenPrivate with
  | none => (true, s)
  | some priv =>
    let flags := priv.flags
    let screen1 :=
      if flags.testBit 1 then
        { s.screen with
          CloseScreen := priv.saved_procs.close_screen
          CreateGC := priv.saved_procs.create_gc
          CreatePixmap := priv.saved_procs.create_pixmap
          DestroyPixmap := priv.saved_procs.destroy_pixmap
          GetSpans := priv.saved_procs.get_spans
          ChangeWindowAttributes := priv.saved_procs.change_window_attributes
          CopyWindow := priv.saved_procs.copy_window
          BitmapToRegion := priv.saved_procs.bitmap_to_region }
      else s.screen
    let picture1 :=
      if flags.testBit 2 then
        { s.picture with
          Composite := priv.saved_procs.composite
          Trapezoids := priv.saved_procs.trapezoids
          Glyphs := priv.saved_procs.glyphs
          Triangles := priv.saved_procs.triangles
          CreatePicture := priv.saved_procs.create_picture }
      else s.picture
    let s1 : HostState :=
      { screen := screen1, picture := picture1
        screenPrivate := none, blockHandler := s.blockHandler }
    if flags.testBit 1 then
      (env.closeResult screen1.CloseScreen, s1)
    else
      (true, s1)

/-- `glamor_fini` (glamor.c lines 473-477): `/* Do nothing currently. */`. -/
def glamor_fini (s : HostState) : HostState :=
  s

/-! ### Concrete fixtures for witnesses and counterexamples -/

/-- An `InitEnv` in which every collaborator call succeeds. -/
def initEnvOk : InitEnv :=
  { priv_alloc_ok := true, screen_key_ok := true, pixmap_key_ok := true
    gl_version_ok := true, register_handlers_ok := true
    has_pack_invert := true, has_fbo_blit := true
    max_renderbuffer_size := 8192 }

/-- A pristine host whose operation tables hold seventeen distinct prior
handlers and whose glamor private slot is empty. -/
def hostState0 : HostState :=
  { screen :=
      { CloseScreen := .host 0, CreateGC := .host 1, CreatePixmap := .host 2
        DestroyPixmap := .host 3, GetSpans := .host 4, GetImage := .host 5
        ChangeWindowAttributes := .host 6, CopyWindow := .host 7
        BitmapToRegion := .host 8 }
    picture :=
      { Composite := .host 9, Trapezoids := .host 10, Glyphs := .host 11
        Triangles := .host 12, AddTraps := .host 13, UnrealizeGlyph := .host 14
        CreatePicture := .host 15, DestroyPicture := .host 16 }
    screenPrivate := none
    blockHandler := none }

/-- A `GlamorEnv` with an 8192-pixel render-target limit, the usual depth
set, and all allocations succeeding. -/
def envGpu : GlamorEnv :=
  { max_fbo_size := 8192, supported_depths := [1, 8, 15, 16, 24, 30, 32]
    priv_alloc_ok := true, fbo_alloc_ok := true, fbo_from_tex_ok := true }

/-- A render target already owned by a binding record in the fixtures. -/
def fbo0 : glamor_pixmap_fbo :=
  { width := 4, height := 4, depth := 24, tex := 3 }

/-- A binding record that owns `fbo0`. -/
def privF0 : glamor_pixmap_private :=
  { type := .GLAMOR_TEXTURE_ONLY, fbo := some fbo0 }

/-- A close-screen environment whose chained handlers all return TRUE. -/
def closeEnvTrue : CloseEnv :=
  ⟨fun _ => true⟩

/-- A close-screen environment that reports TRUE exactly when the invoked
handler is the prior handler `host 0`. -/
def closeEnvHost0 : CloseEnv :=
  ⟨fun hd => hd == Handler.host 0⟩

/-- A glamor screen private with `GLAMOR_USE_SCREEN` active whose saved
close-screen handler is `host 0`. -/
def privUseScreen : glamor_screen_private :=
  { yInverted := false
    saved_procs := { glamor_saved_procs.initial with close_screen := .host 0 }
    flags := GLAMOR_USE_SCREEN, tick := 0
    has_pack_invert := false, has_fbo_blit := false, max_fbo_size := 0 }

/-- A glamor screen private with only `GLAMOR_INVERTED_Y_AXIS` active (the
core-operations selector off). -/
def privNoScreen : glamor_screen_private :=
  { yInverted := true
    saved_procs := glamor_saved_procs.initial
    flags := GLAMOR_INVERTED_Y_AXIS, tick := 0
    has_pack_invert := false, has_fbo_blit := false, max_fbo_size := 0 }

/-! ### Claims -/

/-- C10: the public teardown entry point `glamor_fini` leaves all state
unchanged for every screen: it installs nothing, frees nothing, and modifies
no handler-table entry or side-table slot. -/
theorem glamor_fini_noop (s : HostState) : glamor_fini s = s :=
  rfl

/-- C5 (counterexample): after a successful `glamor_init` with
`GLAMOR_USE_SCREEN`, the tick handler registered with the host event loop is
`_glamor_block_handler`, whose call trace contains no expire call — refuting
the claim that the registered tick handler calls the render-target pool's
expire on every tick. -/
theorem glamor_tick_handler_no_expire :
    (glamor_init initEnvOk GLAMOR_USE_SCREEN hostState0).1 = true ∧
    (glamor_init initEnvOk GLAMOR_USE_SCREEN hostState0).2.blockHandler =
      some TickHandlerId.glamorBlockHandler ∧
    GpuCall.fboExpire ∉ tickHandlerCalls TickHandlerId.glamorBlockHandler := by
  decide

/-- C5 (amended): the tick handler registered at initialization performs,
in order, a flush of pending GPU commands and a blocking wait until the GPU
confirms completion — and nothing else; the render-target pool's expire (and
the tick increment) run only through the separate public entry point
`glamor_block_handler`, which flushes, waits, then expires. -/
theorem glamor_tick_handler_flush_finish_only (priv : glamor_screen_private) :
    tickHandlerCalls TickHandlerId.glamorBlockHandler =
      [GpuCall.glFlush, GpuCall.glFinish] ∧
    (glamor_block_handler priv).2 =
      [GpuCall.glFlush, GpuCall.glFinish, GpuCall.fboExpire] ∧
    (glamor_block_handler priv).1.tick = priv.tick + 1 :=
  ⟨rfl, rfl, rfl⟩

/-- C7: for every binding record that currently owns a render target,
`glamor_set_pixmap_texture` first detaches that target and destroys it, and
only afterwards attaches the newly created target (when creation succeeds);
the record ends up owning exactly the newly created target or nothing, so a
binding record owns at most one render target at every point. -/
theorem glamor_set_pixmap_texture_detach_before_attach (env : GlamorEnv)
    (priv : glamor_pixmap_private) (w h depth tex : Nat)
    (f : glamor_pixmap_fbo) (hf : priv.fbo = some f) :
    (glamor_set_pixmap_texture env priv w h depth tex).2 =
      FboEvent.detached f :: FboEvent.destroyed f ::
        (glamor_create_fbo_from_tex env w h depth tex).toList.map
          FboEvent.attached ∧
    (glamor_set_pixmap_texture env priv w h depth tex).1.fbo =
      glamor_create_fbo_from_tex env w h depth tex := by
  unfold glamor_set_pixmap_texture
  cases hc : glamor_create_fbo_from_tex env w h depth tex <;> simp [hf, hc]

/-- C7 (witness): instance at a record owning `fbo0`, attaching texture 7. -/
theorem glamor_set_pixmap_texture_detach_before_attach_witness :
    (glamor_set_pixmap_texture envGpu privF0 4 4 24 7).2 =
      FboEvent.detached fbo0 :: FboEvent.destroyed fbo0 ::
        (glamor_create_fbo_from_tex envGpu 4 4 24 7).toList.map
          FboEvent.attached ∧
    (glamor_set_pixmap_texture envGpu privF0 4 4 24 7).1.fbo =
      glamor_create_fbo_from_tex envGpu 4 4 24 7 :=
  glamor_set_pixmap_texture_detach_before_attach envGpu privF0 4 4 24 7 fbo0 rfl

/-- C9: if the render-target-creation step of `glamor_set_pixmap_texture`
fails, the previously owned target has already been detached and destroyed
and no new one is attached: after the failed call the binding record owns no
render target (the prior binding is not preserved on error). -/
theorem glamor_set_pixmap_texture_failure_unbound (env : GlamorEnv)
    (priv : glamor_pixmap_private) (w h depth tex : Nat)
    (f : glamor_pixmap_fbo) (hf : priv.fbo = some f)
    (hfail : env.fbo_from_tex_ok = false) :
    (glamor_set_pixmap_texture env priv w h depth tex).1.fbo = none ∧
    (glamor_set_pixmap_texture env priv w h depth tex).2 =
      [FboEvent.detached f, FboEvent.destroyed f] := by
  unfold glamor_set_pixmap_texture glamor_create_fbo_from_tex
  simp [hf, hfail]

/-- C9 (witness): instance at a record owning `fbo0` with the
create-from-texture call failing. -/
theorem glamor_set_pixmap_texture_failure_unbound_witness :
    (glamor_set_pixmap_texture { envGpu with fbo_from_tex_ok := false }
        privF0 4 4 24 7).1.fbo = none ∧
    (glamor_set_pixmap_texture { envGpu with fbo_from_tex_ok := false }
        privF0 4 4 24 7).2 =
      [FboEvent.detached fbo0, FboEvent.destroyed fbo0] :=
  glamor_set_pixmap_texture_failure_unbound _ privF0 4 4 24 7 fbo0 rfl rfl

/-- C2 (counterexample): a creation request of 32768 by 32768 — width and
height greater than 32767, where the claim says a valid surface is still
returned — yields the null pixmap (glamor.c lines 139-140). -/
theorem glamor_create_pixmap_returns_null_over_32767 :
    glamor_create_pixmap envGpu 32768 32768 24 0 = none := by
  decide

/-- C2 (amended): for every request with width and height at most 32767 the
creation operation returns a valid surface — accelerated when feasible,
software-backed otherwise — and never a null value; requests with width or
height greater than 32767 return the null pixmap instead. -/
theorem glamor_create_pixmap_total_within_protocol_limit (env : GlamorEnv)
    (w h depth usage : Nat) :
    (w ≤ 32767 → h ≤ 32767 →
      (glamor_create_pixmap env w h depth usage).isSome = true) ∧
    (32767 < w ∨ 32767 < h →
      glamor_create_pixmap env w h depth usage = none) := by
  constructor
  · intro hw hh
    have hlim : ¬ (32767 < w ∨ 32767 < h) := by omega
    unfold glamor_create_pixmap
    rw [if_neg hlim]
    split_ifs <;> simp
    cases glamor_create_fbo env w h depth usage <;> simp
  · intro hlim
    unfold glamor_create_pixmap
    rw [if_pos hlim]

/-- C2 (witness): a feasible 100 by 100 request returns a surface and a
40000-wide request returns null. -/
theorem glamor_create_pixmap_total_within_protocol_limit_witness :
    (glamor_create_pixmap envGpu 100 100 24 0).isSome = true ∧
    glamor_create_pixmap envGpu 40000 100 24 0 = none :=
  ⟨(glamor_create_pixmap_total_within_protocol_limit envGpu 100 100 24 0).1
      (by decide) (by decide),
   (glamor_create_pixmap_total_within_protocol_limit envGpu 40000 100 24 0).2
      (by decide)⟩

/-- C4 (counterexample): a request whose width 32768 exceeds the queried
maximum render-target dimension 8192 — the claim says such a request is
delegated entirely to the software backing-store path — instead returns the
null pixmap, because the 32767 protocol-limit check fires first
(glamor.c lines 139-140). -/
theorem glamor_create_pixmap_oversize_not_software :
    envGpu.max_fbo_size < 32768 ∧
    glamor_check_fbo_size envGpu 32768 100 = false ∧
    glamor_create_pixmap envGpu 32768 100 24 0 = none ∧
    glamor_create_pixmap envGpu 32768 100 24 0 ≠
      some (fbCreatePixmap 32768 100 24 0) := by
  decide

/-- C4 (amended): for every creation request with width and height at most
32767 whose width or height exceeds the queried maximum render-target
dimension, whose depth is not in the supported set, or whose usage is
CPU-forced, the operation delegates entirely to the software backing-store
path and creates no binding record for the resulting surface. -/
theorem glamor_create_pixmap_infeasible_delegates_software (env : GlamorEnv)
    (w h depth usage : Nat) (hw : w ≤ 32767) (hh : h ≤ 32767)
    (hinf : glamor_check_fbo_size env w h = false ∨
            glamor_check_fbo_depth env depth = false ∨
            usage = GLAMOR_CREATE_PIXMAP_CPU) :
    glamor_create_pixmap env w h depth usage =
      some (fbCreatePixmap w h depth usage) ∧
    (fbCreatePixmap w h depth usage).priv = none := by
  have hlim : ¬ (32767 < w ∨ 32767 < h) := by omega
  unfold glamor_create_pixmap
  rw [if_neg hlim, if_pos hinf]
  exact ⟨rfl, rfl⟩

/-- C4 (witness): a 100 by 100 request against a 64-pixel maximum dimension
is delegated to the software path untracked. -/
theorem glamor_create_pixmap_infeasible_delegates_software_witness :
    glamor_create_pixmap { envGpu with max_fbo_size := 64 } 100 100 24 0 =
      some (fbCreatePixmap 100 100 24 0) ∧
    (fbCreatePixmap 100 100 24 0).priv = none :=
  glamor_create_pixmap_infeasible_delegates_software _ 100 100 24 0
    (by decide) (by decide) (Or.inl (by decide))

/-- C6: for every feasible creation request (within the protocol limit and
the capability checks, with a nonzero size and a successful binding-record
allocation), if acquiring the render target fails, the zero-sized placeholder
and its binding record are destroyed and a fully software-backed surface of
the originally requested size, tracked by no binding record, is returned;
moreover no returned surface is ever half-bound (a binding record present but
no render target owned while the surface has a nonzero size). -/
theorem glamor_create_pixmap_fbo_failure_fallback (env : GlamorEnv)
    (w h depth usage : Nat) :
    (w ≤ 32767 → h ≤ 32767 →
     glamor_check_fbo_size env w h = true →
     glamor_check_fbo_depth env depth = true →
     usage ≠ GLAMOR_CREATE_PIXMAP_CPU →
     env.priv_alloc_ok = true → w ≠ 0 → h ≠ 0 →
     env.fbo_alloc_ok = false →
     glamor_create_pixmap env w h depth usage =
       some (fbCreatePixmap w h depth usage)) ∧
    (∀ p, glamor_create_pixmap env w h depth usage = some p →
      ∀ pr, p.priv = some pr → pr.fbo = none →
      p.width = 0 ∧ p.height = 0) := by
  constructor
  · intro hw hh hsize hdepth husage hpriv hw0 hh0 hfbo
    have hlim : ¬ (32767 < w ∨ 32767 < h) := by omega
    have hacq : glamor_create_fbo env w h depth usage = none := by
      unfold glamor_create_fbo
      rw [if_pos (Or.inr (Or.inr hfbo))]
    unfold glamor_create_pixmap
    rw [if_neg hlim]
    rw [if_neg (by simp [hsize, hdepth, husage])]
    rw [if_neg (by simp [hpriv])]
    rw [if_neg (by simp [hw0, hh0])]
    rw [hacq]
  · intro p hp pr hpr hfbo
    unfold glamor_create_pixmap at hp
    split_ifs at hp
    · injection hp with hp
      subst hp
      simp [fbCreatePixmap] at hpr
    · injection hp with hp
      subst hp
      simp [fbCreatePixmap] at hpr
    · injection hp with hp
      subst hp
      simp [fbCreatePixmap]
    · cases hc : glamor_create_fbo env w h depth usage <;> rw [hc] at hp <;>
        simp [fbCreatePixmap] at hp <;> subst hp
      · simp [fbCreatePixmap] at hpr
      · simp at hpr
        subst hpr
        simp at hfbo

/-- C6 (witness): a feasible 10 by 10 request whose render-target acquisition
fails yields the software surface of the requested size. -/
theorem glamor_create_pixmap_fbo_failure_fallback_witness :
    glamor_create_pixmap { envGpu with fbo_alloc_ok := false } 10 10 24 0 =
      some (fbCreatePixmap 10 10 24 0) :=
  (glamor_create_pixmap_fbo_failure_fallback
      { envGpu with fbo_alloc_ok := false } 10 10 24 0).1
    (by decide) (by decide) (by decide) (by decide) (by decide) rfl
    (by decide) (by decide) rfl

/-- C1 (code bug): install via `glamor_init` with both selector flags
followed immediately by `glamor_close_screen` does NOT return the host's
operation tables to their prior state: the GetImage, AddTraps,
UnrealizeGlyph and DestroyPicture slots — all of which install overwrote
after snapshotting the prior handlers into `saved_procs` — still hold the
glamor handlers after restore (glamor.c lines 444-452 omit GetImage, lines
457-461 omit AddTraps, UnrealizeGlyph and DestroyPicture). -/
theorem glamor_close_screen_restore_incomplete :
    (glamor_init initEnvOk (GLAMOR_USE_SCREEN ||| GLAMOR_USE_PICTURE_SCREEN)
        hostState0).1 = true ∧
    ((glamor_close_screen closeEnvTrue
        (glamor_init initEnvOk (GLAMOR_USE_SCREEN ||| GLAMOR_USE_PICTURE_SCREEN)
          hostState0).2).2.screen.GetImage = Handler.glamorGetImage ∧
      hostState0.screen.GetImage = Handler.host 5) ∧
    ((glamor_close_screen closeEnvTrue
        (glamor_init initEnvOk (GLAMOR_USE_SCREEN ||| GLAMOR_USE_PICTURE_SCREEN)
          hostState0).2).2.picture.AddTraps = Handler.glamorAddTraps ∧
      hostState0.picture.AddTraps = Handler.host 13) ∧
    ((glamor_close_screen closeEnvTrue
        (glamor_init initEnvOk (GLAMOR_USE_SCREEN ||| GLAMOR_USE_PICTURE_SCREEN)
          hostState0).2).2.picture.UnrealizeGlyph = Handler.glamorGlyphUnrealize ∧
      hostState0.picture.UnrealizeGlyph = Handler.host 14) ∧
    ((glamor_close_screen closeEnvTrue
        (glamor_init initEnvOk (GLAMOR_USE_SCREEN ||| GLAMOR_USE_PICTURE_SCREEN)
          hostState0).2).2.picture.DestroyPicture = Handler.glamorDestroyPicture ∧
      hostState0.picture.DestroyPicture = Handler.host 16) := by
  decide

/-- C3: `glamor_init` called with a flag set containing any bit outside the
recognized set returns failure; every initialization failure leaves the
host's operation tables and block-handler registration untouched and no
side-table entry on the screen (on a clean screen the state is exactly
unchanged); and from a clean state a subsequent valid initialization with
all collaborator calls succeeding returns success. -/
theorem glamor_init_failure_no_side_effects (env : InitEnv) (flags : Nat)
    (s : HostState) :
    (8 ≤ flags → (glamor_init env flags s).1 = false) ∧
    ((glamor_init env flags s).1 = false →
      (glamor_init env flags s).2.screen = s.screen ∧
      (glamor_init env flags s).2.picture = s.picture ∧
      (glamor_init env flags s).2.blockHandler = s.blockHandler ∧
      ((glamor_init env flags s).2.screenPrivate = none ∨
        (glamor_init env flags s).2.screenPrivate = s.screenPrivate)) ∧
    (s.screenPrivate = none → (glamor_init env flags s).1 = false →
      (glamor_init env flags s).2 = s) ∧
    (¬ 8 ≤ flags → env.priv_alloc_ok = true → env.screen_key_ok = true →
      env.pixmap_key_ok = true → env.gl_version_ok = true →
      env.register_handlers_ok = true → (glamor_init env flags s).1 = true) := by
  obtain ⟨sc, pc, sp, bh⟩ := s
  unfold glamor_init
  split_ifs with h1 h2 h3 h4 h5 h6 <;>
    refine ⟨?_, ?_, ?_, ?_⟩ <;> intros <;> simp_all

/-- C3 (witness): the invalid flag set 9 (bit 3 set) fails and leaves the
pristine host untouched, after which a valid initialization with
`GLAMOR_USE_SCREEN` succeeds. -/
theorem glamor_init_failure_no_side_effects_witness :
    (glamor_init initEnvOk 9 hostState0).1 = false ∧
    (glamor_init initEnvOk 9 hostState0).2 = hostState0 ∧
    (glamor_init initEnvOk GLAMOR_USE_SCREEN hostState0).1 = true :=
  ⟨(glamor_init_failure_no_side_effects initEnvOk 9 hostState0).1 (by decide),
   (glamor_init_failure_no_side_effects initEnvOk 9 hostState0).2.2.1 rfl
     ((glamor_init_failure_no_side_effects initEnvOk 9 hostState0).1 (by decide)),
   (glamor_init_failure_no_side_effects initEnvOk GLAMOR_USE_SCREEN
       hostState0).2.2.2 (by decide) rfl rfl rfl rfl rfl⟩

/-- C8: when `glamor_close_screen` runs on a context whose
`GLAMOR_USE_SCREEN` selector was active, after restoring the saved handlers
it delegates the final teardown call to the restored prior close handler and
returns that handler's result; when the selector was not active it returns
success without delegating. -/
theorem glamor_close_screen_delegation (env : CloseEnv) (s : HostState)
    (priv : glamor_screen_private) (h : s.screenPrivate = some priv) :
    (priv.flags.testBit 1 = true →
      (glamor_close_screen env s).1 =
        env.closeResult priv.saved_procs.close_screen) ∧
    (priv.flags.testBit 1 = false →
      (glamor_close_screen env s).1 = true) := by
  unfold glamor_close_screen
  rw [h]
  constructor <;> intro hb <;> simp [hb]

/-- C8 (witness): with `GLAMOR_USE_SCREEN` active the returned result is the
saved prior close handler's result (here: TRUE exactly for `host 0`); with
the selector off the result is TRUE. -/
theorem glamor_close_screen_delegation_witness :
    (glamor_close_screen closeEnvHost0
        { hostState0 with screenPrivate := some privUseScreen }).1 = true ∧
    (glamor_close_screen closeEnvHost0
        { hostState0 with screenPrivate := some privNoScreen }).1 = true := by
  constructor
  · have h := (glamor_close_screen_delegation closeEnvHost0
        { hostState0 with screenPrivate := some privUseScreen }
        privUseScreen rfl).1 (by decide)
    rw [h]
    decide
  · exact (glamor_close_screen_delegation closeEnvHost0
      { hostState0 with screenPrivate := some privNoScreen }
      privNoScreen rfl).2 (by decide)
